import Mathlib

/-!
Verification of the AquaSense-AI Real-Time Monitoring Core.

This file gives a shallow embedding of the four source modules
(perimeter.py, detect.py, transmitter.py and the arbitration part of
main.py) and proves the behavioural claims about them.

Modelling conventions:
* numpy uint8 images are total functions from coordinates to pixel values
  together with explicit row and column counts; only in-range coordinates
  are ever enumerated.
* Python floats (times, percentages) are modelled exactly: percentages as
  rationals, wall-clock times over an arbitrary linearly ordered
  commutative ring so that theorems hold for any exact time domain.
* cv2.contourArea of a connected region is modelled by the pixel count of
  the connected component; cv2.cvtColor is abstracted by presenting frames
  directly as grayscale matrices; cv2.resize interpolation is modelled by
  nearest-neighbour sampling.
* Exceptions cannot arise in the model because all functions are total;
  Python code paths that swallow exceptions are noted where relevant.
-/

namespace AquaSense

/-! ## Images -/

/-- A grayscale image: a 2-D pixel buffer with explicit dimensions. -/
structure Img where
  rows : Nat
  cols : Nat
  px : Nat → Nat → Nat

/-- The shape of an image, as numpy reports it. -/
def Img.shape (img : Img) : Nat × Nat := (img.rows, img.cols)

/-- All in-range pixel coordinates of an image, row major. -/
def pixelList (img : Img) : List (Nat × Nat) :=
  (List.range img.rows).flatMap (fun r => (List.range img.cols).map (fun c => (r, c)))

/-- Coordinates of the nonzero pixels of an image. -/
def onPixels (img : Img) : List (Nat × Nat) :=
  (pixelList img).filter (fun p => img.px p.1 p.2 ≠ 0)

/-- cv2.countNonZero. -/
def countNonZero (img : Img) : Nat := (onPixels img).length

/-- Absolute difference of two natural numbers. -/
def absdiffN (a b : Nat) : Nat := max a b - min a b

/-- cv2.absdiff, pixelwise absolute difference. -/
def absdiffImg (a b : Img) : Img :=
  ⟨a.rows, a.cols, fun r c => absdiffN (a.px r c) (b.px r c)⟩

/-- cv2.threshold with THRESH_BINARY: a pixel maps to 255 exactly when its
value strictly exceeds the threshold, else 0. -/
def thresholdBinary (img : Img) (t : Nat) : Img :=
  ⟨img.rows, img.cols, fun r c => if t < img.px r c then 255 else 0⟩

/-- cv2.bitwise_and of an image with itself under a mask: pixels survive
exactly where the mask is nonzero. -/
def maskImg (img m : Img) : Img :=
  ⟨img.rows, img.cols, fun r c => if m.px r c ≠ 0 then img.px r c else 0⟩

/-- cv2.resize to the given target shape (interpolation modelled by
nearest-neighbour sampling). -/
def resizeImg (img : Img) (rows cols : Nat) : Img :=
  ⟨rows, cols, fun r c => img.px (r * img.rows / rows) (c * img.cols / cols)⟩

/-- The grayscale frame the internal check actually compares against the
reference: the frame itself when its resolution matches the reference,
else the frame resized to the reference resolution. -/
def grayForCheck (ref frame : Img) : Img :=
  if frame.shape = ref.shape then frame else resizeImg frame ref.rows ref.cols

/-! ## Connected components

cv2.findContours with RETR_EXTERNAL yields one outer contour per
8-connected component of the binary image; the area test of the source is
modelled on the pixel count of the component. -/

/-- 8-neighbourhood adjacency of two distinct pixel coordinates. -/
def adjacent8 (p q : Nat × Nat) : Bool :=
  decide (p ≠ q) && decide (absdiffN p.1 q.1 ≤ 1) && decide (absdiffN p.2 q.2 ≤ 1)

/-- Insert one pixel into a partition of the pixels seen so far, merging
every component adjacent to it. -/
def addPoint (comps : List (List (Nat × Nat))) (p : Nat × Nat) :
    List (List (Nat × Nat)) :=
  let split := comps.partition (fun comp => comp.any (fun q => adjacent8 p q))
  (p :: split.1.flatten) :: split.2

/-- The 8-connected components of a set of pixels, as a partition into
lists. -/
def components (pts : List (Nat × Nat)) : List (List (Nat × Nat)) :=
  pts.foldl addPoint []

/-! ## Polygon rasterisation (cv2.fillPoly) -/

/-- The edge list of a closed polygon: consecutive vertex pairs, the last
vertex joined back to the first. -/
def polygonEdges (pts : List (ℤ × ℤ)) : List ((ℤ × ℤ) × (ℤ × ℤ)) :=
  pts.zip (pts.rotate 1)

/-- A point lies on the closed segment from a to b. -/
def onSegment (a b p : ℤ × ℤ) : Prop :=
  (b.1 - a.1) * (p.2 - a.2) = (b.2 - a.2) * (p.1 - a.1) ∧
  min a.1 b.1 ≤ p.1 ∧ p.1 ≤ max a.1 b.1 ∧
  min a.2 b.2 ≤ p.2 ∧ p.2 ≤ max a.2 b.2

instance (a b p : ℤ × ℤ) : Decidable (onSegment a b p) := by
  unfold onSegment; infer_instance

/-- The horizontal ray from p towards positive x strictly crosses the open
edge from a to b (standard even-odd crossing test, cross-multiplied to stay
in integer arithmetic). -/
def edgeCrossesRay (p a b : ℤ × ℤ) : Prop :=
  (a.2 ≤ p.2 ∧ p.2 < b.2 ∧ (p.1 - a.1) * (b.2 - a.2) < (p.2 - a.2) * (b.1 - a.1)) ∨
  (b.2 ≤ p.2 ∧ p.2 < a.2 ∧ (p.2 - a.2) * (b.1 - a.1) < (p.1 - a.1) * (b.2 - a.2))

instance (p a b : ℤ × ℤ) : Decidable (edgeCrossesRay p a b) := by
  unfold edgeCrossesRay; infer_instance

/-- Even-odd point-in-polygon test, boundary points included. -/
def pointInPoly (pts : List (ℤ × ℤ)) (p : ℤ × ℤ) : Prop :=
  (∃ e ∈ polygonEdges pts, onSegment e.1 e.2 p) ∨
  ((polygonEdges pts).countP (fun e => decide (edgeCrossesRay p e.1 e.2))) % 2 = 1

instance (pts : List (ℤ × ℤ)) (p : ℤ × ℤ) : Decidable (pointInPoly pts p) := by
  unfold pointInPoly; infer_instance

/-- cv2.fillPoly on a zeroed single-channel image: pixel (x, y) is set to
255 exactly when it lies inside or on the polygon. -/
def fillPolyMask (rows cols : Nat) (pts : List (ℤ × ℤ)) : Img :=
  ⟨rows, cols, fun r c => if pointInPoly pts ((c : ℤ), (r : ℤ)) then 255 else 0⟩

/-! ## PerimeterMonitor (perimeter.py) -/

/-- The persistent state of a PerimeterMonitor instance. Threading fields
(lock, stop flag, thread handle) carry no observable state and are not
modelled; the logger only prints. -/
structure PerimeterMonitor where
  reference_frame : Option Img
  perimeter_points : List (ℤ × ℤ)
  mask : Option Img
  drawing_complete : Bool
  obstruction_detected : Bool
  current_obstruction_pct : ℚ
  obstruction_threshold : ℚ
  min_contour_area : Nat
  difference_threshold : Nat

/-- PerimeterMonitor.__init__: thresholds default to 80 percent, contour
area 1500 and pixel difference 45; nothing is configured. -/
def PerimeterMonitor.init : PerimeterMonitor :=
  { reference_frame := none
    perimeter_points := []
    mask := none
    drawing_complete := false
    obstruction_detected := false
    current_obstruction_pct := 0
    obstruction_threshold := 80
    min_contour_area := 1500
    difference_threshold := 45 }

/-- PerimeterMonitor.reset: clears all perimeter data and detection
state. -/
def PerimeterMonitor.reset (m : PerimeterMonitor) : PerimeterMonitor :=
  { m with
    reference_frame := none
    perimeter_points := []
    mask := none
    drawing_complete := false
    obstruction_detected := false
    current_obstruction_pct := 0 }

/-- PerimeterMonitor.set_perimeter_points: resets, then rejects fewer than
3 points with a False return, else stores the points. -/
def set_perimeter_points (m : PerimeterMonitor) (points : List (ℤ × ℤ)) :
    PerimeterMonitor × Bool :=
  let m0 := m.reset
  if points.length < 3 then (m0, false)
  else ({ m0 with perimeter_points := points }, true)

/-- PerimeterMonitor.finalize_perimeter: rejects fewer than 3 stored
points, else builds the polygon mask, stores the grayscale reference frame
and marks the drawing complete. -/
def finalize_perimeter (m : PerimeterMonitor) (frame : Img) :
    PerimeterMonitor × Bool :=
  if m.perimeter_points.length < 3 then (m, false)
  else
    ({ m with
        mask := some (fillPolyMask frame.rows frame.cols m.perimeter_points)
        reference_frame := some frame
        drawing_complete := true }, true)

/-- PerimeterMonitor._check_obstruction_internal: background subtraction.
Grayscale difference against the reference (resized on mismatch),
binarisation at difference_threshold, restriction to the mask, connected
components, changed-pixel percentage of the mask area, and the final
obstruction formula. The float percentage (changed / area * 100) is
represented exactly as the rational with numerator changed * 100 and
denominator area. -/
def check_obstruction_internal (m : PerimeterMonitor) (current_frame : Img) :
    Bool × ℚ :=
  match m.reference_frame, m.mask with
  | some ref, some mk =>
    let current_gray :=
      if current_frame.shape = ref.shape then current_frame
      else resizeImg current_frame ref.rows ref.cols
    let diff := absdiffImg ref current_gray
    let thresh := thresholdBinary diff m.difference_threshold
    let masked_diff := maskImg thresh mk
    let contours := components (onPixels masked_diff)
    let total_changed_pixels := countNonZero masked_diff
    let mask_area := countNonZero mk
    if mask_area = 0 then (false, 0)
    else
      let percentage : ℚ := mkRat (total_changed_pixels * 100) mask_area
      let significant_contours := contours.filter
        (fun contour => decide (m.min_contour_area < contour.length))
      let is_obstructed :=
        decide ((0 < significant_contours.length ∧ 5 < percentage) ∨
                m.obstruction_threshold ≤ percentage)
      (is_obstructed, percentage)
  | _, _ => (false, 0)

/-- PerimeterMonitor.check_obstruction, the public single-shot check:
returns (False, 0.0) if the perimeter has not been completed. -/
def check_obstruction (m : PerimeterMonitor) (current_frame : Img) :
    Bool × ℚ :=
  if m.drawing_complete then check_obstruction_internal m current_frame
  else (false, 0)

/-- The changed pixels of a frame against a reference under a mask, stated
declaratively from the words of the spec: a pixel counts as changed exactly
when it lies in the mask and its absolute grayscale difference strictly
exceeds the threshold. -/
def changedPixels (ref cur mk : Img) (t : Nat) : List (Nat × Nat) :=
  (pixelList ref).filter
    (fun p => mk.px p.1 p.2 ≠ 0 ∧ t < absdiffN (ref.px p.1 p.2) (cur.px p.1 p.2))

/-! ## Continuous scanning debounce (perimeter.py, monitoring_loop) -/

/-- The loop-local debounce state of start_continuous_monitoring. -/
structure ScanState where
  last_state : Bool
  consecutive_detections : Nat
deriving DecidableEq

/-- The debounce constant of the monitoring loop. -/
def required_consecutive : Nat := 2

/-- One iteration of the monitoring loop of
PerimeterMonitor.start_continuous_monitoring, for one raw
(obstructed, percentage) read: positives increment the consecutive
counter, negatives reset it to 0; the externally visible state is counter
at least required_consecutive; on a state change the registered callback is
invoked once with (new state, percentage). Returns the new debounce state
and the list of callback invocations of this iteration. -/
def scanStep (s : ScanState) (obstructed : Bool) (percentage : ℚ) :
    ScanState × List (Bool × ℚ) :=
  let cnt := if obstructed then s.consecutive_detections + 1 else 0
  let current_state := decide (required_consecutive ≤ cnt)
  if current_state ≠ s.last_state then
    (⟨current_state, cnt⟩, [(current_state, percentage)])
  else
    (⟨s.last_state, cnt⟩, [])

/-- The monitoring loop run over a list of raw reads, collecting every
callback invocation in order. -/
def runScan (s : ScanState) : List (Bool × ℚ) → ScanState × List (Bool × ℚ)
  | [] => (s, [])
  | read :: rest =>
    let step := scanStep s read.1 read.2
    let tail := runScan step.1 rest
    (tail.1, step.2 ++ tail.2)

/-! ## RealtimeDetector (detect.py) -/

/-- Frames submitted to the detector; their pixel content is irrelevant to
the verified claims, so they are identified abstractly. -/
structure Frame where
  id : Nat
deriving DecidableEq

/-- One detection: class id, label, confidence and box. -/
structure Detection where
  cls : Nat
  name : String
  conf : ℚ
  box : List ℚ
deriving DecidableEq

/-- The blank 480 x 640 initialisation frame of _create_default_result. -/
def blank_frame : Frame := ⟨0⟩

/-- RealtimeDetector._create_default_result: the placeholder triple. -/
def create_default_result : Frame × Bool × List Detection :=
  (blank_frame, false, [])

/-- The state of a RealtimeDetector over an exact time domain K.
The YOLO model itself, the worker thread handle and the unused result
queue are not modelled; detection_queue is the single-slot work queue. -/
structure RealtimeDetector (K : Type) where
  frame_skip : Nat
  frame_counter : Nat
  last_detection_time : K
  min_processing_interval : K
  detection_queue : Option Frame
  last_valid_result : Frame × Bool × List Detection
  last_event_time : K
  event_hold_seconds : K

/-- RealtimeDetector.__init__ with the YOLO path available: frame skip 2
(process every 3rd counted frame), minimum processing interval
1 / target_fps, empty queue, placeholder last result, hold of 1 second. -/
def RealtimeDetector.init {K : Type} [LinearOrderedField K] (target_fps : K) :
    RealtimeDetector K :=
  { frame_skip := 2
    frame_counter := 0
    last_detection_time := 0
    min_processing_interval := 1 / target_fps
    detection_queue := none
    last_valid_result := create_default_result
    last_event_time := 0
    event_hold_seconds := 1 }

/-- RealtimeDetector.detect_frame on the YOLO path: a None frame returns
the stored result untouched; a call inside the minimum processing interval
returns the stored result untouched; otherwise the frame counter advances
and only every (frame_skip + 1)-th counted call offers the frame to the
single-slot queue, which accepts it only when empty. The stored last valid
result is returned in every case. -/
def detect_frame {K : Type} [LinearOrderedCommRing K] (s : RealtimeDetector K)
    (frame : Option Frame) (current_time : K) :
    RealtimeDetector K × (Frame × Bool × List Detection) :=
  match frame with
  | none => (s, s.last_valid_result)
  | some f =>
    if current_time - s.last_detection_time < s.min_processing_interval then
      (s, s.last_valid_result)
    else
      let s1 := { s with frame_counter := s.frame_counter + 1 }
      if s1.frame_counter % (s.frame_skip + 1) ≠ 0 then (s1, s.last_valid_result)
      else if s1.detection_queue = none then
        ({ s1 with detection_queue := some f }, s.last_valid_result)
      else (s1, s.last_valid_result)

/-- The temporal smoothing step of RealtimeDetector._processing_loop: a
positive raw inference at time now refreshes last_event_time to now, and
the reported flag is true exactly when now is within hold of the last
positive event. Returns the new last_event_time and the reported flag. -/
def holdStep {K : Type} [LinearOrderedCommRing K] (hold last_event_time : K)
    (raw : Bool) (now : K) : K × Bool :=
  let le2 := if raw then now else last_event_time
  (le2, decide (now - le2 ≤ hold))

/-- The processing loop run over a list of timed raw inference outcomes,
collecting for each inference the time and the smoothed flag stored into
last_valid_result. -/
def runHold {K : Type} [LinearOrderedCommRing K] (hold : K) (last_event_time : K) :
    List (K × Bool) → K × List (K × Bool)
  | [] => (last_event_time, [])
  | read :: rest =>
    let step := holdStep hold last_event_time read.2 read.1
    let tail := runHold hold step.1 rest
    (tail.1, (read.1, step.2) :: tail.2)

/-! ## Alert arbitration (main.py, MonitorScreen.monitor_loop) -/

/-- A command code sent to the signal sink: 0, 1 and 2. -/
inductive Signal where
  | clear
  | drowning
  | obstruction
deriving DecidableEq

/-- The integer code of a signal. -/
def Signal.code : Signal → Nat
  | Signal.clear => 0
  | Signal.drowning => 1
  | Signal.obstruction => 2

/-- The arbitration state of MonitorScreen over an exact time domain K. -/
structure MonitorScreen (K : Type) where
  obstruction_alert_active : Bool
  obstruction_start_time : K
  obstruction_min_duration : K
  obstruction_signal_sent : Bool
  last_drowning_state : Bool
deriving DecidableEq

/-- MonitorScreen.__init__: no alert active, minimum obstruction duration
6 seconds. -/
def MonitorScreen.init {K : Type} [LinearOrderedCommRing K] : MonitorScreen K :=
  { obstruction_alert_active := false
    obstruction_start_time := 0
    obstruction_min_duration := 6
    obstruction_signal_sent := false
    last_drowning_state := false }

/-- The cycle-level obstruction input of monitor_loop: the perimeter check
either did not run this cycle (none) or reported (obstructed, percentage);
main.py additionally requires percentage at least 40.0 before treating the
report as a current obstruction. -/
def current_obstruction_of (report : Option (Bool × ℚ)) : Bool :=
  match report with
  | some r => r.1 && decide ((40 : ℚ) ≤ r.2)
  | none => false

/-- The alert arbitration segment of MonitorScreen.monitor_loop for one
cycle: first the priority obstruction handling (edge-triggered signal,
6-second minimum duration before clearing, drowning override), then the
secondary drowning handling, which is evaluated only when no obstruction
alert is active. Both segments run only when the sink is connected.
Returns the new state and the signals emitted this cycle, in order. -/
def monitor_cycle_alerts {K : Type} [LinearOrderedCommRing K]
    (s : MonitorScreen K) (bluetooth_connected : Bool)
    (current_obstruction : Bool) (detected : Bool) (current_time : K) :
    MonitorScreen K × List Signal :=
  if bluetooth_connected then
    let step1 :=
      if current_obstruction then
        let sA :=
          if !s.obstruction_alert_active then
            { s with
                obstruction_alert_active := true
                obstruction_start_time := current_time
                obstruction_signal_sent := false }
          else s
        let step :=
          if !sA.obstruction_signal_sent then
            ({ sA with obstruction_signal_sent := true }, [Signal.obstruction])
          else (sA, [])
        if step.1.last_drowning_state then
          ({ step.1 with last_drowning_state := false }, step.2 ++ [Signal.clear])
        else (step.1, step.2)
      else if s.obstruction_alert_active then
        if s.obstruction_min_duration ≤ current_time - s.obstruction_start_time then
          ({ s with
              obstruction_alert_active := false
              obstruction_signal_sent := false }, [Signal.clear])
        else (s, [])
      else (s, [])
    let step2 :=
      if !step1.1.obstruction_alert_active then
        if detected && !step1.1.last_drowning_state then
          ({ step1.1 with last_drowning_state := true }, [Signal.drowning])
        else if !detected && step1.1.last_drowning_state then
          ({ step1.1 with last_drowning_state := false }, [Signal.clear])
        else (step1.1, [])
      else (step1.1, [])
    (step2.1, step1.2 ++ step2.2)
  else (s, [])

/-- One full monitor_loop cycle at the arbitration level, taking the raw
perimeter report of the cycle (none when the check did not run). -/
def monitor_cycle {K : Type} [LinearOrderedCommRing K] (s : MonitorScreen K)
    (bluetooth_connected : Bool) (perimeter_report : Option (Bool × ℚ))
    (detected : Bool) (current_time : K) : MonitorScreen K × List Signal :=
  monitor_cycle_alerts s bluetooth_connected
    (current_obstruction_of perimeter_report) detected current_time

/-- A sequence of monitor_loop cycles with the sink connected; each input
is (perimeter report, detected, current time). Collects all emitted
signals in order. -/
def run_monitor_cycles {K : Type} [LinearOrderedCommRing K] (s : MonitorScreen K) :
    List (Option (Bool × ℚ) × Bool × K) → MonitorScreen K × List Signal
  | [] => (s, [])
  | inp :: rest =>
    let step := monitor_cycle s true inp.1 inp.2.1 inp.2.2
    let tail := run_monitor_cycles step.1 rest
    (tail.1, step.2 ++ tail.2)

/-! ## BluetoothTransmitter (transmitter.py) -/

/-- The observable state of the transmitter: whether the channel is marked
connected, whether the obstruction pulse loop is active, and the byte
strings written to the serial channel so far. A present serial handle is
folded into the connected flag. -/
structure BluetoothTransmitter where
  connected : Bool
  obstruction_pulsing : Bool
  written : List String
deriving DecidableEq

/-- BluetoothTransmitter._send_command: refuses with False while
disconnected, writes the command followed by a newline on success, and on
a write failure marks the channel disconnected and returns False instead
of raising. The possibility of the underlying serial write failing is
an explicit input. -/
def send_command (s : BluetoothTransmitter) (command : String)
    (write_ok : Bool) : BluetoothTransmitter × Bool :=
  if !s.connected then (s, false)
  else if write_ok then
    ({ s with written := s.written ++ [command ++ "\n"] }, true)
  else ({ s with connected := false }, false)

/-- BluetoothTransmitter.stop_obstruction_pulse: when pulsing, stops the
pulse and sends the clear command. -/
def stop_obstruction_pulse (s : BluetoothTransmitter) (write_ok : Bool) :
    BluetoothTransmitter :=
  if s.obstruction_pulsing then
    (send_command { s with obstruction_pulsing := false } "0" write_ok).1
  else s

/-- BluetoothTransmitter.send_drowning_alert: when connected, stops any
pulse and sends command 1; returns None (modelled as none) when not
connected. -/
def send_drowning_alert (s : BluetoothTransmitter) (ok0 ok1 : Bool) :
    BluetoothTransmitter × Option Bool :=
  if s.connected then
    let s1 := stop_obstruction_pulse s ok0
    let step := send_command s1 "1" ok1
    (step.1, some step.2)
  else (s, none)

/-- BluetoothTransmitter.send_obstruction_alert: when connected, stops any
pulse and sends command 2. -/
def send_obstruction_alert (s : BluetoothTransmitter) (ok0 ok1 : Bool) :
    BluetoothTransmitter × Option Bool :=
  if s.connected then
    let s1 := stop_obstruction_pulse s ok0
    let step := send_command s1 "2" ok1
    (step.1, some step.2)
  else (s, none)

/-- BluetoothTransmitter.send_clear_alert: when connected, stops any pulse
and sends command 0. -/
def send_clear_alert (s : BluetoothTransmitter) (ok0 ok1 : Bool) :
    BluetoothTransmitter × Option Bool :=
  if s.connected then
    let s1 := stop_obstruction_pulse s ok0
    let step := send_command s1 "0" ok1
    (step.1, some step.2)
  else (s, none)

/-! ## Concrete instances used to exercise the theorems -/

/-- A 3 x 3 all-black grayscale reference frame. -/
def refW : Img := ⟨3, 3, fun _ _ => 0⟩

/-- A 3 x 3 mask selecting every pixel. -/
def maskW : Img := ⟨3, 3, fun _ _ => 255⟩

/-- A 3 x 3 frame of uniform intensity 100. -/
def frameW : Img := ⟨3, 3, fun _ _ => 100⟩

/-- A 6 x 6 frame of uniform intensity 100, whose resolution does not
match the 3 x 3 reference, forcing the resize path of the check. -/
def frameW2 : Img := ⟨6, 6, fun _ _ => 100⟩

/-- A configured perimeter monitor over the 3 x 3 frames above. -/
def mW : PerimeterMonitor :=
  { PerimeterMonitor.init with reference_frame := some refW, mask := some maskW }

/-- A 1 x 1 black frame. -/
def frame1 : Img := ⟨1, 1, fun _ _ => 0⟩

/-- The four corners of the 10 x 10 square perimeter of property P8. -/
def squarePts : List (ℤ × ℤ) := [(0, 0), (10, 0), (10, 10), (0, 10)]

/-- A 10 x 10 black reference frame. -/
def frame10 : Img := ⟨10, 10, fun _ _ => 0⟩

end AquaSense

namespace AquaSense

/-! ## Theorems -/

/-- C7: configuration with fewer than 3 vertices fails with a False return
and leaves the engine unconfigured; configuring the 4-vertex square
(0,0),(10,0),(10,10),(0,10) on a 10 x 10 reference frame succeeds and
produces a mask of exactly 100 nonzero pixels. -/
theorem C7_configure :
    (∀ (m : PerimeterMonitor) (pts : List (ℤ × ℤ)), pts.length < 3 →
        set_perimeter_points m pts = (m.reset, false) ∧
        (set_perimeter_points m pts).1.drawing_complete = false) ∧
    ((set_perimeter_points PerimeterMonitor.init squarePts).2 = true ∧
      (finalize_perimeter (set_perimeter_points PerimeterMonitor.init squarePts).1
        frame10).2 = true ∧
      (finalize_perimeter (set_perimeter_points PerimeterMonitor.init squarePts).1
        frame10).1.drawing_complete = true ∧
      Option.map countNonZero
        (finalize_perimeter (set_perimeter_points PerimeterMonitor.init squarePts).1
          frame10).1.mask = some 100) := by
  constructor
  · intro m pts h
    constructor
    · simp [set_perimeter_points, h]
    · simp [set_perimeter_points, h, PerimeterMonitor.reset]
  · refine ⟨by decide, by decide, by decide, by decide⟩

/-- C7 witness: the general rejection clause applied to the 2-vertex
polygon of property P8. -/
theorem C7_witness :
    set_perimeter_points PerimeterMonitor.init [((0 : ℤ), (0 : ℤ)), (1, 1)] =
      (PerimeterMonitor.init.reset, false) ∧
    (set_perimeter_points PerimeterMonitor.init
      [((0 : ℤ), (0 : ℤ)), (1, 1)]).1.drawing_complete = false :=
  C7_configure.1 PerimeterMonitor.init [((0 : ℤ), (0 : ℤ)), (1, 1)] (by decide)

/-- C8: the single-shot obstruction check on an unconfigured engine (no
completed perimeter, or no reference frame or mask) returns
(false, 0) rather than failing. -/
theorem C8_unconfigured_check (m : PerimeterMonitor) (frame : Img) :
    (m.drawing_complete = false → check_obstruction m frame = (false, 0)) ∧
    (m.reference_frame = none ∨ m.mask = none →
      check_obstruction_internal m frame = (false, 0)) := by
  constructor
  · intro h
    simp [check_obstruction, h]
  · intro h
    rcases h with h | h
    · unfold check_obstruction_internal
      rw [h]
    · unfold check_obstruction_internal
      rw [h]
      rcases m.reference_frame with _ | ref <;> rfl

/-- C8 witness: the freshly initialised engine returns (false, 0) on a
concrete frame through both the public check and the internal check. -/
theorem C8_witness :
    check_obstruction PerimeterMonitor.init frame1 = (false, 0) ∧
    check_obstruction_internal PerimeterMonitor.init frame1 = (false, 0) :=
  ⟨(C8_unconfigured_check PerimeterMonitor.init frame1).1 rfl,
   (C8_unconfigured_check PerimeterMonitor.init frame1).2 (Or.inl rfl)⟩

/-- C9: every command delivered to the sink is written as the command text
followed by a newline; the public senders only ever append the digit
messages 0, 1 or 2 with a newline; a write failure marks the channel
disconnected and is reported as a False return, never raised; a send
attempted while disconnected returns False without writing. -/
theorem C9_sink_write :
    (∀ (s : BluetoothTransmitter) (cmd : String) (ok : Bool),
        (send_command s cmd ok).1.written = s.written ∨
        (send_command s cmd ok).1.written = s.written ++ [cmd ++ "\n"]) ∧
    (∀ (s : BluetoothTransmitter) (cmd : String) (ok : Bool),
        s.connected = false → send_command s cmd ok = (s, false)) ∧
    (∀ (s : BluetoothTransmitter) (cmd : String), s.connected = true →
        send_command s cmd false = ({ s with connected := false }, false)) ∧
    (∀ (s : BluetoothTransmitter) (ok0 ok1 : Bool) (msg : String),
        msg ∈ (send_drowning_alert s ok0 ok1).1.written →
        msg ∈ s.written ∨ msg = "0" ++ "\n" ∨ msg = "1" ++ "\n") ∧
    (∀ (s : BluetoothTransmitter) (ok0 ok1 : Bool) (msg : String),
        msg ∈ (send_obstruction_alert s ok0 ok1).1.written →
        msg ∈ s.written ∨ msg = "0" ++ "\n" ∨ msg = "2" ++ "\n") ∧
    (∀ (s : BluetoothTransmitter) (ok0 ok1 : Bool) (msg : String),
        msg ∈ (send_clear_alert s ok0 ok1).1.written →
        msg ∈ s.written ∨ msg = "0" ++ "\n") := by
  have hsend : ∀ (s : BluetoothTransmitter) (cmd : String) (ok : Bool),
      (send_command s cmd ok).1.written = s.written ∨
      (send_command s cmd ok).1.written = s.written ++ [cmd ++ "\n"] := by
    intro s cmd ok
    unfold send_command
    by_cases hc : s.connected <;> by_cases hk : ok <;> simp [hc, hk]
  have hstop : ∀ (s : BluetoothTransmitter) (ok : Bool) (msg : String),
      msg ∈ (stop_obstruction_pulse s ok).written →
      msg ∈ s.written ∨ msg = "0" ++ "\n" := by
    intro s ok msg hm
    unfold stop_obstruction_pulse at hm
    by_cases hp : s.obstruction_pulsing
    · simp only [hp, if_true] at hm
      rcases hsend { s with obstruction_pulsing := false } "0" ok with h | h <;>
        rw [h] at hm
      · exact Or.inl hm
      · rcases List.mem_append.mp hm with h2 | h2
        · exact Or.inl h2
        · simp at h2
          exact Or.inr h2
    · simp only [hp, if_false] at hm
      exact Or.inl hm
  refine ⟨hsend, ?_, ?_, ?_, ?_, ?_⟩
  · intro s cmd ok h
    simp [send_command, h]
  · intro s cmd h
    simp [send_command, h]
  · intro s ok0 ok1 msg hm
    unfold send_drowning_alert at hm
    by_cases hc : s.connected
    · simp only [hc, if_true] at hm
      rcases hsend (stop_obstruction_pulse s ok0) "1" ok1 with h | h <;> rw [h] at hm
      · rcases hstop s ok0 msg hm with h2 | h2
        · exact Or.inl h2
        · exact Or.inr (Or.inl h2)
      · rcases List.mem_append.mp hm with h2 | h2
        · rcases hstop s ok0 msg h2 with h3 | h3
          · exact Or.inl h3
          · exact Or.inr (Or.inl h3)
        · simp at h2
          exact Or.inr (Or.inr h2)
    · simp only [hc, if_false] at hm
      exact Or.inl hm
  · intro s ok0 ok1 msg hm
    unfold send_obstruction_alert at hm
    by_cases hc : s.connected
    · simp only [hc, if_true] at hm
      rcases hsend (stop_obstruction_pulse s ok0) "2" ok1 with h | h <;> rw [h] at hm
      · rcases hstop s ok0 msg hm with h2 | h2
        · exact Or.inl h2
        · exact Or.inr (Or.inl h2)
      · rcases List.mem_append.mp hm with h2 | h2
        · rcases hstop s ok0 msg h2 with h3 | h3
          · exact Or.inl h3
          · exact Or.inr (Or.inl h3)
        · simp at h2
          exact Or.inr (Or.inr h2)
    · simp only [hc, if_false] at hm
      exact Or.inl hm
  · intro s ok0 ok1 msg hm
    unfold send_clear_alert at hm
    by_cases hc : s.connected
    · simp only [hc, if_true] at hm
      rcases hsend (stop_obstruction_pulse s ok0) "0" ok1 with h | h <;> rw [h] at hm
      · exact hstop s ok0 msg hm
      · rcases List.mem_append.mp hm with h2 | h2
        · exact hstop s ok0 msg h2
        · simp at h2
          exact Or.inr h2
    · simp only [hc, if_false] at hm
      exact Or.inl hm

/-- C9 witness: concrete sends on a connected transmitter. The failing
write disconnects and returns False; a send while disconnected returns
False without writing; a message appended by the drowning sender on a
fresh connected transmitter is the digit 1 with a newline. -/
theorem C9_witness :
    send_command ⟨true, false, []⟩ "1" false = (⟨false, false, []⟩, false) ∧
    send_command ⟨false, false, []⟩ "2" true = (⟨false, false, []⟩, false) ∧
    ("1" ++ "\n" ∈ ([] : List String) ∨ "1" ++ "\n" = "0" ++ "\n" ∨
      "1" ++ "\n" = "1" ++ "\n") := by
  refine ⟨C9_sink_write.2.2.1 ⟨true, false, []⟩ "1" rfl,
    C9_sink_write.2.1 ⟨false, false, []⟩ "2" true rfl,
    C9_sink_write.2.2.2.1 ⟨true, false, []⟩ true true ("1" ++ "\n") ?_⟩
  decide

/-- C10: calling detect_frame with a None frame returns the stored last
valid result with the state unchanged (no counter increment, nothing
enqueued), and before any inference completes the stored result is the
initialisation placeholder (blank frame, false, empty detections). -/
theorem C10_none_frame {K : Type} [LinearOrderedCommRing K] :
    (∀ (s : RealtimeDetector K) (now : K),
        detect_frame s none now = (s, s.last_valid_result)) ∧
    (RealtimeDetector.init (15 : ℚ)).last_valid_result =
      (blank_frame, false, []) :=
  ⟨fun _ _ => rfl, rfl⟩

end AquaSense

namespace AquaSense

/-- C1 counterexample: in a monitoring cycle where the perimeter engine
reports obstructed = true with percentage 6.5 and the drowning hazard flag
is true, the code emits DROWNING, because main.py additionally requires
percentage at least 40.0 before treating the report as an obstruction.
This refutes the claim that the emitted signal is then never DROWNING. -/
theorem C1_counterexample :
    (monitor_cycle (MonitorScreen.init (K := ℤ)) true (some (true, mkRat 13 2))
        true 0).2 = [Signal.drowning] := by decide

/-- C1 amended: in every cycle in which the perimeter engine reports
obstructed = true with percentage at least 40 (the extra threshold
main.py applies before honouring the report), DROWNING is never emitted,
the obstruction alert is active after the cycle, and OBSTRUCTION is
emitted unless the alert was already active with its signal sent
(edge-triggering). -/
theorem C1_amended_priority {K : Type} [LinearOrderedCommRing K]
    (s : MonitorScreen K) (pct : ℚ) (detected : Bool) (now : K)
    (hpct : (40 : ℚ) ≤ pct) :
    Signal.drowning ∉ (monitor_cycle s true (some (true, pct)) detected now).2 ∧
    (monitor_cycle s true (some (true, pct)) detected
        now).1.obstruction_alert_active = true ∧
    (s.obstruction_alert_active = false ∨ s.obstruction_signal_sent = false →
      Signal.obstruction ∈
        (monitor_cycle s true (some (true, pct)) detected now).2) := by
  have hobs : current_obstruction_of (some (true, pct)) = true := by
    simp [current_obstruction_of, hpct]
  unfold monitor_cycle
  rw [hobs]
  unfold monitor_cycle_alerts
  by_cases hA : s.obstruction_alert_active <;>
    by_cases hS : s.obstruction_signal_sent <;>
    by_cases hD : s.last_drowning_state <;>
    simp [hA, hS, hD]

/-- C1 witness: the amended theorem at a fresh arbitration state with a
qualifying report of 40 percent. -/
theorem C1_witness :
    Signal.drowning ∉
      (monitor_cycle (MonitorScreen.init (K := ℤ)) true (some (true, 40)) true
        0).2 ∧
    (monitor_cycle (MonitorScreen.init (K := ℤ)) true (some (true, 40)) true
        0).1.obstruction_alert_active = true ∧
    ((MonitorScreen.init (K := ℤ)).obstruction_alert_active = false ∨
      (MonitorScreen.init (K := ℤ)).obstruction_signal_sent = false →
      Signal.obstruction ∈
        (monitor_cycle (MonitorScreen.init (K := ℤ)) true (some (true, 40)) true
          0).2) :=
  C1_amended_priority (MonitorScreen.init (K := ℤ)) 40 true 0 (by decide)

/-- C2 counterexample: processing the raw reads positive, positive,
negative from the initial debounce state flips the visible flag to true at
the second positive and then back to false at the very next, single,
negative read, refuting the claim that the flag flips back to false only
after 2 consecutive negative reads. -/
theorem C2_counterexample :
    (runScan ⟨false, 0⟩ [(true, 0), (true, 0), (false, 0)]).2 =
      [(true, 0), (false, 0)] ∧
    (runScan ⟨false, 0⟩ [(true, 0), (true, 0), (false, 0)]).1.last_state =
      false := by decide

/-- C2 amended: positive reads increment the counter and negative reads
reset it to 0; the visible flag flips to true only after 2 consecutive
positive reads, and an isolated positive surrounded by negatives never
flips it; the flag flips back to false at the first negative read (one
negative resets the counter below the threshold); the callback fires
exactly once per flip with (new state, percentage). -/
theorem C2_amended_debounce :
    (∀ (s : ScanState) (obstructed : Bool) (pct : ℚ),
        (scanStep s obstructed pct).1.consecutive_detections =
          if obstructed then s.consecutive_detections + 1 else 0) ∧
    (∀ (s : ScanState) (p1 p2 p3 : ℚ), s.last_state = false →
        (runScan s [(false, p1), (true, p2), (false, p3)]).2 = [] ∧
        (runScan s [(false, p1), (true, p2), (false, p3)]).1.last_state =
          false) ∧
    (∀ (s : ScanState) (p1 p2 : ℚ),
        s.last_state = false → s.consecutive_detections = 0 →
        (runScan s [(true, p1), (true, p2)]).2 = [(true, p2)] ∧
        (runScan s [(true, p1), (true, p2)]).1.last_state = true) ∧
    (∀ (s : ScanState) (pct : ℚ), s.last_state = true →
        scanStep s false pct = (⟨false, 0⟩, [(false, pct)])) ∧
    (∀ (s : ScanState) (obstructed : Bool) (pct : ℚ),
        ((scanStep s obstructed pct).1.last_state = s.last_state →
          (scanStep s obstructed pct).2 = []) ∧
        ((scanStep s obstructed pct).1.last_state ≠ s.last_state →
          (scanStep s obstructed pct).2 =
            [((scanStep s obstructed pct).1.last_state, pct)])) := by
  refine ⟨?_, ?_, ?_, ?_, ?_⟩
  · intro s obstructed pct
    simp only [scanStep]
    split <;> split <;> rfl
  · intro s p1 p2 p3 h
    rcases s with ⟨ls, c⟩
    simp only at h
    subst h
    constructor <;> rfl
  · intro s p1 p2 h hc
    rcases s with ⟨ls, c⟩
    simp only at h hc
    subst h
    subst hc
    constructor <;> rfl
  · intro s pct h
    rcases s with ⟨ls, c⟩
    simp only at h
    subst h
    rfl
  · intro s obstructed pct
    unfold scanStep
    by_cases h : decide (required_consecutive ≤
        if obstructed then s.consecutive_detections + 1 else 0) = s.last_state
    · simp [h]
    · simp [h]

/-- C2 witness: the amended clauses exercised at concrete inputs: an
isolated positive read never flips the flag, two consecutive positives
flip it with one callback, and one negative read flips it back with one
callback. -/
theorem C2_witness :
    (runScan ⟨false, 7⟩ [(false, 1), (true, 2), (false, 3)]).2 = [] ∧
    (runScan ⟨false, 0⟩ [(true, 1), (true, 2)]).2 = [(true, 2)] ∧
    scanStep ⟨true, 2⟩ false 5 = (⟨false, 0⟩, [(false, 5)]) :=
  ⟨(C2_amended_debounce.2.1 ⟨false, 7⟩ 1 2 3 rfl).1,
   (C2_amended_debounce.2.2.1 ⟨false, 0⟩ 1 2 rfl rfl).1,
   C2_amended_debounce.2.2.2.1 ⟨true, 2⟩ 5 rfl⟩

end AquaSense

namespace AquaSense

/-- C6: detect_frame always returns the stored most recent completed
result without blocking; a frame submitted while one is already queued is
dropped (the queue is unchanged); the queue changes only by accepting the
submitted frame, which requires an empty queue, an elapsed minimum
inter-processing interval since the last completed detection, and the
counted call number being a multiple of frame_skip + 1; the default
frame-skip factor makes that every 3rd counted call. -/
theorem C6_detect_frame {K : Type} [LinearOrderedCommRing K] :
    (∀ (s : RealtimeDetector K) (frame : Option Frame) (now : K),
        (detect_frame s frame now).2 = s.last_valid_result) ∧
    (∀ (s : RealtimeDetector K) (f g : Frame) (now : K),
        s.detection_queue = some g →
        (detect_frame s (some f) now).1.detection_queue = some g) ∧
    (∀ (s : RealtimeDetector K) (f : Frame) (now : K),
        (detect_frame s (some f) now).1.detection_queue ≠ s.detection_queue →
        s.detection_queue = none ∧
        (detect_frame s (some f) now).1.detection_queue = some f ∧
        s.min_processing_interval ≤ now - s.last_detection_time ∧
        (s.frame_counter + 1) % (s.frame_skip + 1) = 0) ∧
    (RealtimeDetector.init (15 : ℚ)).frame_skip + 1 = 3 := by
  refine ⟨?_, ?_, ?_, rfl⟩
  · intro s frame now
    rcases frame with _ | f
    · rfl
    · simp only [detect_frame]
      split
      · rfl
      · split
        · rfl
        · split <;> rfl
  · intro s f g now hq
    simp only [detect_frame]
    split
    · exact hq
    · split
      · exact hq
      · split
        · next h =>
            have h2 : s.detection_queue = none := h
            rw [hq] at h2
            cases h2
        · exact hq
  · intro s f now hne
    simp only [detect_frame] at hne ⊢
    split at hne
    · exact absurd rfl hne
    · next hint =>
        split at hne
        · exact absurd rfl hne
        · next hmod =>
            split at hne
            · next hqe =>
                have h2 : s.detection_queue = none := hqe
                refine ⟨h2, ?_, not_lt.mp hint, of_not_not hmod⟩
                simp [hqe, hint, of_not_not hmod]
            · exact absurd rfl hne

/-- C6 witness: a call on a state with an empty queue, at counted call 3
and outside the minimum interval, enqueues the frame; the general clauses
instantiated there confirm the gating conditions. -/
theorem C6_witness :
    ((⟨2, 2, 0, 1, none, create_default_result, 0, 1⟩ :
        RealtimeDetector ℤ).detection_queue = none ∧
      (detect_frame (⟨2, 2, 0, 1, none, create_default_result, 0, 1⟩ :
          RealtimeDetector ℤ) (some ⟨5⟩) 10).1.detection_queue = some ⟨5⟩ ∧
      (⟨2, 2, 0, 1, none, create_default_result, 0, 1⟩ :
          RealtimeDetector ℤ).min_processing_interval ≤
        10 - (⟨2, 2, 0, 1, none, create_default_result, 0, 1⟩ :
          RealtimeDetector ℤ).last_detection_time ∧
      ((⟨2, 2, 0, 1, none, create_default_result, 0, 1⟩ :
          RealtimeDetector ℤ).frame_counter + 1) %
        ((⟨2, 2, 0, 1, none, create_default_result, 0, 1⟩ :
          RealtimeDetector ℤ).frame_skip + 1) = 0) ∧
    (detect_frame (⟨2, 0, 0, 1, some ⟨9⟩, create_default_result, 0, 1⟩ :
        RealtimeDetector ℤ) (some ⟨5⟩) 10).1.detection_queue = some ⟨9⟩ :=
  ⟨(C6_detect_frame.2.2.1 (⟨2, 2, 0, 1, none, create_default_result, 0, 1⟩ :
      RealtimeDetector ℤ) ⟨5⟩ 10 (by decide)),
   C6_detect_frame.2.1 (⟨2, 0, 0, 1, some ⟨9⟩, create_default_result, 0, 1⟩ :
      RealtimeDetector ℤ) ⟨5⟩ ⟨9⟩ 10 rfl⟩

/-- The temporal-hold invariant of the processing loop: if the last
positive event time is at least t, and every remaining inference time is
at least t, then every inference whose time is within hold of t reports a
true flag. -/
theorem runHold_reports_true {K : Type} [LinearOrderedCommRing K] (hold t : K) :
    ∀ (reads : List (K × Bool)) (le0 : K), t ≤ le0 →
      (∀ r ∈ reads, t ≤ r.1) →
      ∀ out ∈ (runHold hold le0 reads).2, out.1 ≤ t + hold → out.2 = true := by
  intro reads
  induction reads with
  | nil =>
      intro le0 _ _ out hout
      simp [runHold] at hout
  | cons read rest ih =>
      intro le0 hle hall out hout hlim
      simp only [runHold, holdStep, List.mem_cons] at hout
      have hle2 : t ≤ if read.2 then read.1 else le0 := by
        split
        · exact hall read (List.mem_cons_self _ _)
        · exact hle
      rcases hout with hout | hout
      · subst hout
        simp only
        apply decide_eq_true
        calc read.1 - (if read.2 then read.1 else le0)
            ≤ read.1 - t := sub_le_sub_left hle2 read.1
          _ ≤ hold := by
              have := hlim
              simp only at this
              exact sub_le_iff_le_add'.mpr this
      · exact ih (if read.2 then read.1 else le0) hle2
          (fun r hr => hall r (List.mem_cons_of_mem _ hr)) out hout hlim

/-- C5: once a raw positive inference occurs at time t with a hold of 1
second, every result the processing loop stores for an inference at a
time in the window from t to t plus 1 reports a true hazard flag, even if
the raw inferences in that window are negative; and with no further
positives, an inference after the window may report false. -/
theorem C5_temporal_hold {K : Type} [LinearOrderedCommRing K] :
    (∀ (le0 t : K) (reads : List (K × Bool)),
        (∀ r ∈ reads, t ≤ r.1) →
        ∀ out ∈ (runHold 1 le0 ((t, true) :: reads)).2,
          out.1 ≤ t + 1 → out.2 = true) ∧
    (∀ (t u : K), t + 1 < u →
        runHold 1 t [(u, false)] = (t, [(u, false)])) := by
  constructor
  · intro le0 t reads hall out hout hlim
    simp only [runHold, holdStep, if_true, List.mem_cons] at hout
    rcases hout with hout | hout
    · subst hout
      simp only
      apply decide_eq_true
      rw [sub_self]
      exact zero_le_one
    · exact runHold_reports_true 1 t reads t le_rfl hall out hout hlim
  · intro t u h
    simp only [runHold, holdStep, if_neg Bool.false_ne_true]
    have hflag : decide (u - t ≤ (1 : K)) = false :=
      decide_eq_false (not_le.mpr (lt_sub_iff_add_lt'.mpr h))
    rw [hflag]

/-- C5 witness: a positive inference at time 0 followed by a negative
inference at time 1 still reports true at time 1 (inside the hold
window). -/
theorem C5_witness :
    ((1 : ℤ), true) ∈
      (runHold 1 (-5 : ℤ) [((0 : ℤ), true), ((1 : ℤ), false)]).2 ∧
    (((1 : ℤ), true) : ℤ × Bool).2 = true :=
  ⟨by decide,
   C5_temporal_hold.1 (-5 : ℤ) 0 [((1 : ℤ), false)] (by decide)
     ((1 : ℤ), true) (by decide) (by decide)⟩

end AquaSense

namespace AquaSense

/-- While the obstruction alert is active, a cycle with no current
obstruction whose elapsed time since onset is below the minimum duration
leaves the state untouched and emits nothing. -/
theorem cycle_neg_active_short {K : Type} [LinearOrderedCommRing K]
    (s : MonitorScreen K) (report : Option (Bool × ℚ)) (detected : Bool)
    (now : K) (hrep : current_obstruction_of report = false)
    (hact : s.obstruction_alert_active = true)
    (hdur : now - s.obstruction_start_time < s.obstruction_min_duration) :
    monitor_cycle s true report detected now = (s, []) := by
  unfold monitor_cycle
  rw [hrep]
  unfold monitor_cycle_alerts
  simp [hact, not_le.mpr hdur]

/-- While the obstruction alert is active, a cycle with no current
obstruction, no detection and no drowning alert whose elapsed time since
onset reaches the minimum duration deactivates the alert and emits
exactly one clear signal. -/
theorem cycle_neg_active_long {K : Type} [LinearOrderedCommRing K]
    (s : MonitorScreen K) (report : Option (Bool × ℚ)) (now : K)
    (hrep : current_obstruction_of report = false)
    (hact : s.obstruction_alert_active = true)
    (hdur : s.obstruction_min_duration ≤ now - s.obstruction_start_time)
    (hdr : s.last_drowning_state = false) :
    monitor_cycle s true report false now =
      ({ s with obstruction_alert_active := false,
                obstruction_signal_sent := false }, [Signal.clear]) := by
  unfold monitor_cycle
  rw [hrep]
  unfold monitor_cycle_alerts
  simp [hact, hdur, hdr]

/-- With no alert active, no current obstruction, no detection and no
drowning alert, a cycle changes nothing and emits nothing. -/
theorem cycle_neg_idle_quiet {K : Type} [LinearOrderedCommRing K]
    (s : MonitorScreen K) (report : Option (Bool × ℚ)) (now : K)
    (hrep : current_obstruction_of report = false)
    (hact : s.obstruction_alert_active = false)
    (hdr : s.last_drowning_state = false) :
    monitor_cycle s true report false now = (s, []) := by
  unfold monitor_cycle
  rw [hrep]
  unfold monitor_cycle_alerts
  simp [hact, hdr]

/-- A quiet run: from an idle, non-drowning state, a run of cycles with no
current obstruction and no detection changes nothing and emits nothing. -/
theorem run_idle_quiet {K : Type} [LinearOrderedCommRing K] :
    ∀ (inputs : List (Option (Bool × ℚ) × Bool × K)) (s : MonitorScreen K),
      s.obstruction_alert_active = false → s.last_drowning_state = false →
      (∀ inp ∈ inputs, current_obstruction_of inp.1 = false ∧ inp.2.1 = false) →
      run_monitor_cycles s inputs = (s, []) := by
  intro inputs
  induction inputs with
  | nil => intro s _ _ _; rfl
  | cons inp rest ih =>
      intro s hact hdr hall
      have h1 := hall inp (List.mem_cons_self _ _)
      have hdet : inp.2.1 = false := h1.2
      have hstep := cycle_neg_idle_quiet s inp.1 inp.2.2 h1.1 hact hdr
      simp only [run_monitor_cycles, hdet, hstep]
      rw [ih s hact hdr (fun i hi => hall i (List.mem_cons_of_mem _ hi))]
      rfl

/-- The key obstruction-clearing trace property: from an active alert with
no drowning alert, over any run of cycles with no current obstruction and
no detection, the emitted signals are exactly one clear signal if some
cycle time is at least the minimum duration past the onset, and nothing
otherwise; in the former case the final state is the deactivated one. -/
theorem run_neg_trace {K : Type} [LinearOrderedCommRing K] :
    ∀ (inputs : List (Option (Bool × ℚ) × Bool × K)) (s : MonitorScreen K),
      s.obstruction_alert_active = true → s.last_drowning_state = false →
      (∀ inp ∈ inputs, current_obstruction_of inp.1 = false ∧ inp.2.1 = false) →
      run_monitor_cycles s inputs =
        (if inputs.any (fun inp =>
            decide (s.obstruction_min_duration ≤
              inp.2.2 - s.obstruction_start_time))
         then ({ s with obstruction_alert_active := false,
                        obstruction_signal_sent := false }, [Signal.clear])
         else (s, [])) := by
  intro inputs
  induction inputs with
  | nil => intro s _ _ _; rfl
  | cons inp rest ih =>
      intro s hact hdr hall
      have h1 := hall inp (List.mem_cons_self _ _)
      have hdet : inp.2.1 = false := h1.2
      have hrest : ∀ i ∈ rest, current_obstruction_of i.1 = false ∧ i.2.1 = false :=
        fun i hi => hall i (List.mem_cons_of_mem _ hi)
      by_cases hq : s.obstruction_min_duration ≤ inp.2.2 - s.obstruction_start_time
      · have hstep := cycle_neg_active_long s inp.1 inp.2.2 h1.1 hact hq hdr
        simp only [run_monitor_cycles, hdet, hstep]
        rw [run_idle_quiet rest
          ({ s with obstruction_alert_active := false,
                    obstruction_signal_sent := false }) rfl hdr hrest]
        simp [List.any_cons, hq]
      · have hstep := cycle_neg_active_short s inp.1 inp.2.1 inp.2.2 h1.1 hact
          (not_le.mp hq)
        simp only [run_monitor_cycles] at hstep ⊢
        rw [hstep, ih s hact hdr hrest]
        by_cases hr : rest.any (fun i =>
            decide (s.obstruction_min_duration ≤
              i.2.2 - s.obstruction_start_time)) <;>
          simp [List.any_cons, hq, hr]

/-- C4: while the obstruction alert is active, negative cycles before the
6-second minimum duration keep the alert active and send nothing; the
first negative cycle at or past 6 seconds since onset sends the clear
signal exactly once and deactivates the alert; over any negative run the
clear appears exactly once if some cycle reaches the threshold and never
otherwise, and it appears at the first qualifying cycle. -/
theorem C4_min_duration_clear_once {K : Type} [LinearOrderedCommRing K] :
    (∀ (s : MonitorScreen K) (report : Option (Bool × ℚ)) (detected : Bool)
        (now : K),
        current_obstruction_of report = false →
        s.obstruction_alert_active = true →
        s.obstruction_min_duration = 6 →
        now - s.obstruction_start_time < 6 →
        monitor_cycle s true report detected now = (s, [])) ∧
    (∀ (s : MonitorScreen K) (report : Option (Bool × ℚ)) (now : K),
        current_obstruction_of report = false →
        s.obstruction_alert_active = true →
        s.obstruction_min_duration = 6 →
        (6 : K) ≤ now - s.obstruction_start_time →
        s.last_drowning_state = false →
        monitor_cycle s true report false now =
          ({ s with obstruction_alert_active := false,
                    obstruction_signal_sent := false }, [Signal.clear])) ∧
    (∀ (s : MonitorScreen K) (inputs : List (Option (Bool × ℚ) × Bool × K)),
        s.obstruction_alert_active = true →
        s.obstruction_min_duration = 6 →
        s.last_drowning_state = false →
        (∀ inp ∈ inputs,
          current_obstruction_of inp.1 = false ∧ inp.2.1 = false) →
        run_monitor_cycles s inputs =
          (if inputs.any (fun inp =>
              decide ((6 : K) ≤ inp.2.2 - s.obstruction_start_time))
           then ({ s with obstruction_alert_active := false,
                          obstruction_signal_sent := false }, [Signal.clear])
           else (s, []))) ∧
    (∀ (s : MonitorScreen K) (pre post : List (Option (Bool × ℚ) × Bool × K))
        (q : Option (Bool × ℚ) × Bool × K),
        s.obstruction_alert_active = true →
        s.obstruction_min_duration = 6 →
        s.last_drowning_state = false →
        (∀ inp ∈ pre ++ q :: post,
          current_obstruction_of inp.1 = false ∧ inp.2.1 = false) →
        (∀ inp ∈ pre, ¬ ((6 : K) ≤ inp.2.2 - s.obstruction_start_time)) →
        (6 : K) ≤ q.2.2 - s.obstruction_start_time →
        run_monitor_cycles s pre = (s, []) ∧
        monitor_cycle s true q.1 false q.2.2 =
          ({ s with obstruction_alert_active := false,
                    obstruction_signal_sent := false }, [Signal.clear])) := by
  refine ⟨?_, ?_, ?_, ?_⟩
  · intro s report detected now hrep hact hmin hdur
    exact cycle_neg_active_short s report detected now hrep hact
      (by rw [hmin]; exact hdur)
  · intro s report now hrep hact hmin hdur hdr
    exact cycle_neg_active_long s report now hrep hact
      (by rw [hmin]; exact hdur) hdr
  · intro s inputs hact hmin hdr hall
    have h := run_neg_trace inputs s hact hdr hall
    rw [h, hmin]
  · intro s pre post q hact hmin hdr hall hpre hq
    constructor
    · have hallpre : ∀ inp ∈ pre,
          current_obstruction_of inp.1 = false ∧ inp.2.1 = false :=
        fun i hi => hall i (List.mem_append_left _ hi)
      have h := run_neg_trace pre s hact hdr hallpre
      rw [h]
      have hany : pre.any (fun inp =>
          decide (s.obstruction_min_duration ≤
            inp.2.2 - s.obstruction_start_time)) = false := by
        rw [List.any_eq_false]
        intro i hi
        simp only [decide_eq_true_eq, hmin]
        exact hpre i hi
      rw [hany]
      simp
    · have hqmem := hall q (List.mem_append_right _ (List.mem_cons_self _ _))
      exact cycle_neg_active_long s q.1 q.2.2 hqmem.1 hact
        (by rw [hmin]; exact hq) hdr

/-- C4 witness: the concrete scenario of property P7 over integer times.
The alert is active with onset 0 and signal sent; negative cycles at
times 3, 4 and 5 keep it active with no signal, and continuing negative
to time 7 yields exactly one clear. -/
theorem C4_witness :
    run_monitor_cycles (⟨true, 0, 6, true, false⟩ : MonitorScreen ℤ)
        [(none, false, 3), (none, false, 4), (none, false, 5),
          (none, false, 6), (none, false, 7)] =
      ((⟨false, 0, 6, false, false⟩ : MonitorScreen ℤ), [Signal.clear]) ∧
    run_monitor_cycles (⟨true, 0, 6, true, false⟩ : MonitorScreen ℤ)
        [(none, false, 3), (none, false, 4), (none, false, 5)] =
      ((⟨true, 0, 6, true, false⟩ : MonitorScreen ℤ), []) := by
  constructor
  · have h := (C4_min_duration_clear_once (K := ℤ)).2.2.1
      ⟨true, 0, 6, true, false⟩
      [(none, false, 3), (none, false, 4), (none, false, 5),
        (none, false, 6), (none, false, 7)]
      rfl rfl rfl (by decide)
    rw [h]
    decide
  · have h := (C4_min_duration_clear_once (K := ℤ)).2.2.1
      ⟨true, 0, 6, true, false⟩
      [(none, false, 3), (none, false, 4), (none, false, 5)]
      rfl rfl rfl (by decide)
    rw [h]
    decide

end AquaSense

namespace AquaSense

/-- The binarisation, masking and enumeration pipeline of the internal
check picks out exactly the declaratively changed pixels: those inside the
mask whose absolute difference against the reference strictly exceeds the
threshold. -/
theorem onPixels_masked_eq_changed (ref cur mk : Img) (t : Nat) :
    onPixels (maskImg (thresholdBinary (absdiffImg ref cur) t) mk) =
      changedPixels ref cur mk t := by
  unfold onPixels changedPixels
  have hlist : pixelList (maskImg (thresholdBinary (absdiffImg ref cur) t) mk) =
      pixelList ref := rfl
  rw [hlist]
  apply List.filter_congr
  intro p _
  simp only [maskImg, thresholdBinary, absdiffImg]
  by_cases h1 : mk.px p.1 p.2 = 0
  · simp [h1]
  · by_cases h2 : t < absdiffN (ref.px p.1 p.2) (cur.px p.1 p.2)
    · simp [h1, h2]
    · simp [h1, h2]

/-- The exact rational used for the percentage equals the spec formula
changed divided by area times 100. -/
theorem mkRat_pct (n d : Nat) :
    mkRat ((n : ℤ) * 100) d = (n : ℚ) / (d : ℚ) * 100 := by
  rw [Rat.mkRat_eq_div]
  push_cast
  ring

/-- The significant-contour filter of the internal check is nonempty
exactly when some connected component exceeds the area threshold. -/
theorem exists_significant_iff (l : List (List (Nat × Nat))) (a : Nat) :
    0 < (l.filter (fun c => decide (a < c.length))).length ↔
      ∃ c ∈ l, a < c.length := by
  rw [List.length_pos, Ne, List.filter_eq_nil_iff]
  push_neg
  simp

/-- C3: for every configured engine at the default thresholds and every
frame, the internal check compares the reference against the effective
grayscale frame (the frame itself at matching resolution, the resized
frame on a mismatch): a pixel counts as changed exactly when it lies in
the mask and differs from the reference by more than 45, the returned
percentage is changed pixels over mask area times 100, and the returned
flag is true exactly when (some connected component of the changed pixels
has more than 1500 pixels and the percentage exceeds 5) or the percentage
is at least 80. -/
theorem C3_check_once_formula (m : PerimeterMonitor) (ref mk frame : Img)
    (href : m.reference_frame = some ref) (hmask : m.mask = some mk)
    (hdiff : m.difference_threshold = 45)
    (hcont : m.min_contour_area = 1500)
    (hthr : m.obstruction_threshold = 80)
    (hnz : countNonZero mk ≠ 0) :
    onPixels (maskImg (thresholdBinary
        (absdiffImg ref (grayForCheck ref frame)) 45) mk) =
      changedPixels ref (grayForCheck ref frame) mk 45 ∧
    (check_obstruction_internal m frame).2 =
      ((changedPixels ref (grayForCheck ref frame) mk 45).length : ℚ) /
        (countNonZero mk : ℚ) * 100 ∧
    ((check_obstruction_internal m frame).1 = true ↔
      ((∃ comp ∈ components (changedPixels ref (grayForCheck ref frame) mk 45),
          1500 < comp.length) ∧
        5 < (check_obstruction_internal m frame).2) ∨
      80 ≤ (check_obstruction_internal m frame).2) := by
  have hmasked := onPixels_masked_eq_changed ref (grayForCheck ref frame) mk 45
  have heval : check_obstruction_internal m frame =
      (decide ((0 < ((components
              (changedPixels ref (grayForCheck ref frame) mk 45)).filter
              (fun c => decide (1500 < c.length))).length ∧
            (5 : ℚ) < mkRat
              (((changedPixels ref (grayForCheck ref frame) mk 45).length : ℤ) *
                100) (countNonZero mk)) ∨
          (80 : ℚ) ≤ mkRat
            (((changedPixels ref (grayForCheck ref frame) mk 45).length : ℤ) *
              100) (countNonZero mk)),
        mkRat (((changedPixels ref (grayForCheck ref frame) mk 45).length : ℤ) *
          100) (countNonZero mk)) := by
    unfold check_obstruction_internal
    rw [href, hmask]
    dsimp only
    rw [show (if frame.shape = ref.shape then frame
        else resizeImg frame ref.rows ref.cols) = grayForCheck ref frame from rfl]
    simp only [hdiff, hcont, hthr]
    rw [if_neg hnz]
    rw [show countNonZero (maskImg (thresholdBinary (absdiffImg ref
        (grayForCheck ref frame)) 45) mk) =
        (changedPixels ref (grayForCheck ref frame) mk 45).length
      from congrArg List.length hmasked]
    rw [hmasked]
  refine ⟨hmasked, ?_, ?_⟩
  · rw [heval]
    exact mkRat_pct (changedPixels ref (grayForCheck ref frame) mk 45).length
      (countNonZero mk)
  · rw [heval]
    simp only [decide_eq_true_eq]
    rw [exists_significant_iff]

/-- C3 witness: the formula instantiated on a concrete configured 3 x 3
engine (black reference, full mask) twice: with a matching 3 x 3 frame,
and with a mismatched 6 x 6 frame that exercises the resize path. -/
theorem C3_witness :
    (onPixels (maskImg (thresholdBinary
        (absdiffImg refW (grayForCheck refW frameW2)) 45) maskW) =
      changedPixels refW (grayForCheck refW frameW2) maskW 45 ∧
    (check_obstruction_internal mW frameW2).2 =
      ((changedPixels refW (grayForCheck refW frameW2) maskW 45).length : ℚ) /
        (countNonZero maskW : ℚ) * 100 ∧
    ((check_obstruction_internal mW frameW2).1 = true ↔
      ((∃ comp ∈ components (changedPixels refW (grayForCheck refW frameW2)
            maskW 45), 1500 < comp.length) ∧
        5 < (check_obstruction_internal mW frameW2).2) ∨
      80 ≤ (check_obstruction_internal mW frameW2).2)) ∧
    (check_obstruction_internal mW frameW).2 =
      ((changedPixels refW (grayForCheck refW frameW) maskW 45).length : ℚ) /
        (countNonZero maskW : ℚ) * 100 :=
  ⟨C3_check_once_formula mW refW maskW frameW2 rfl rfl rfl rfl rfl (by decide),
   (C3_check_once_formula mW refW maskW frameW rfl rfl rfl rfl rfl
     (by decide)).2.1⟩

end AquaSense
